import Mathlib

/-!
Verification of the configuration-compilation layer of
`tensorforce/agents/ppo.py` (`ProximalPolicyOptimization.__init__`).

The constructor translates a flat set of hyperparameters into nested
configuration dictionaries (`policy`, `memory`, `update`, `optimizer`,
`objective`, `reward_estimation`, `baseline_policy`, `baseline_objective`)
handed to the superclass constructor.  We embed the Python dictionary
values as an inductive `Value` type (insertion-ordered association lists,
as Python dicts preserve insertion order), and the derivation performed by
`__init__` (source lines 246-276) as a function returning `Except`:
an `assert` failure aborts construction, otherwise the derived blocks are
delivered to the superclass call.
-/

namespace PPO

/-- Python values appearing in the configuration dictionaries: `None`,
strings, numbers (modelled as rationals, since this layer only stores and
passes literals through), booleans, and insertion-ordered dictionaries. -/
inductive Value : Type where
  | vnone : Value
  | vstr : String → Value
  | vnum : ℚ → Value
  | vbool : Bool → Value
  | vdict : List (String × Value) → Value

/-- The derived configuration blocks that `ProximalPolicyOptimization.__init__`
passes to `super().__init__` (the TensorforceModel part of the call,
source lines 288-291). -/
structure DerivedConfig : Type where
  policy : Value
  memory : Value
  update : Value
  optimizer : Value
  objective : Value
  reward_estimation : Value
  baseline_policy : Value
  baseline_optimizer : Value
  baseline_objective : Value

/-- The arguments of `ProximalPolicyOptimization.__init__` that feed the
derivation of the configuration blocks, with the Python default values
(source lines 204-226).  `states`, `actions` and `max_episode_timesteps`
are required and passed through unchanged; `memory`, `update_frequency`,
`critic_network` and `critic_optimizer` default to Python `None`,
modelled as `Option.none`. -/
structure Args : Type where
  states : Value
  actions : Value
  max_episode_timesteps : Value
  batch_size : Value
  network : Value := Value.vstr "auto"
  memory : Option Value := Option.none
  update_frequency : Option Value := Option.none
  learning_rate : ℚ := 3 / 10000
  subsampling_fraction : ℚ := 33 / 100
  optimization_steps : ℚ := 10
  likelihood_ratio_clipping : ℚ := 2 / 10
  discount : ℚ := 99 / 100
  estimate_terminal : Bool := false
  critic_network : Option Value := Option.none
  critic_optimizer : Option Value := Option.none

/-- The body of `ProximalPolicyOptimization.__init__` (source lines
246-292), restricted to the derivation of the configuration blocks.
A failing `assert` (lines 266 and 275) aborts construction with an
`AssertionError` before the superclass call; otherwise the derived
blocks are returned.  In the `critic_network is not None` branch the
conditional `(False if critic_network is None else 'early')` (line 271)
evaluates to `'early'`. -/
def init (a : Args) : Except String DerivedConfig :=
  let policy := Value.vdict [("network", a.network), ("temperature", Value.vnum 1)]
  let memory :=
    match a.memory with
    | Option.none => Value.vdict [("type", Value.vstr "recent")]
    | Option.some m => Value.vdict [("type", Value.vstr "recent"), ("capacity", m)]
  let update :=
    match a.update_frequency with
    | Option.none =>
        Value.vdict [("unit", Value.vstr "episodes"), ("batch_size", a.batch_size)]
    | Option.some f =>
        Value.vdict [("unit", Value.vstr "episodes"), ("batch_size", a.batch_size),
          ("frequency", f)]
  let optimizer := Value.vdict [("type", Value.vstr "adam"),
    ("learning_rate", Value.vnum a.learning_rate)]
  let optimizer := Value.vdict [("type", Value.vstr "subsampling_step"),
    ("optimizer", optimizer), ("fraction", Value.vnum a.subsampling_fraction)]
  let optimizer := Value.vdict [("type", Value.vstr "multi_step"),
    ("optimizer", optimizer), ("num_steps", Value.vnum a.optimization_steps)]
  let objective := Value.vdict [("type", Value.vstr "policy_gradient"),
    ("ratio_based", Value.vbool true),
    ("clipping_value", Value.vnum a.likelihood_ratio_clipping)]
  match a.critic_network with
  | Option.none =>
      let reward_estimation := Value.vdict [("horizon", Value.vstr "episode"),
        ("discount", Value.vnum a.discount)]
      let baseline_policy := Value.vnone
      match a.critic_optimizer with
      | Option.some _ => Except.error "AssertionError"
      | Option.none =>
          let baseline_objective := Value.vnone
          Except.ok
            { policy := policy, memory := memory, update := update,
              optimizer := optimizer, objective := objective,
              reward_estimation := reward_estimation,
              baseline_policy := baseline_policy,
              baseline_optimizer := Value.vnone,
              baseline_objective := baseline_objective }
  | Option.some cn =>
      let reward_estimation := Value.vdict [("horizon", Value.vstr "episode"),
        ("discount", Value.vnum a.discount),
        ("estimate_horizon", Value.vstr "early"),
        ("estimate_terminal", Value.vbool a.estimate_terminal),
        ("estimate_advantage", Value.vbool true)]
      let baseline_policy := Value.vdict [("network", cn)]
      match a.critic_optimizer with
      | Option.none => Except.error "AssertionError"
      | Option.some co =>
          let baseline_objective := Value.vdict [("type", Value.vstr "value"),
            ("value", Value.vstr "state")]
          Except.ok
            { policy := policy, memory := memory, update := update,
              optimizer := optimizer, objective := objective,
              reward_estimation := reward_estimation,
              baseline_policy := baseline_policy,
              baseline_optimizer := co,
              baseline_objective := baseline_objective }

/-- A default construction: only the four required arguments are given,
every optional argument keeps its Python default. -/
def sampleArgs : Args :=
  { states := Value.vstr "states_spec", actions := Value.vstr "actions_spec",
    max_episode_timesteps := Value.vnum 5, batch_size := Value.vnum 2 }

/-- The configuration blocks derived from `sampleArgs`. -/
def sampleConfig : DerivedConfig :=
  { policy := Value.vdict [("network", Value.vstr "auto"), ("temperature", Value.vnum 1)],
    memory := Value.vdict [("type", Value.vstr "recent")],
    update := Value.vdict [("unit", Value.vstr "episodes"), ("batch_size", Value.vnum 2)],
    optimizer := Value.vdict [("type", Value.vstr "multi_step"),
      ("optimizer", Value.vdict [("type", Value.vstr "subsampling_step"),
        ("optimizer", Value.vdict [("type", Value.vstr "adam"),
          ("learning_rate", Value.vnum (3 / 10000))]),
        ("fraction", Value.vnum (33 / 100))]),
      ("num_steps", Value.vnum 10)],
    objective := Value.vdict [("type", Value.vstr "policy_gradient"),
      ("ratio_based", Value.vbool true), ("clipping_value", Value.vnum (2 / 10))],
    reward_estimation := Value.vdict [("horizon", Value.vstr "episode"),
      ("discount", Value.vnum (99 / 100))],
    baseline_policy := Value.vnone,
    baseline_optimizer := Value.vnone,
    baseline_objective := Value.vnone }

/-- A construction that additionally supplies a memory capacity of 100. -/
def sampleArgsMem : Args :=
  { sampleArgs with memory := Option.some (Value.vnum 100) }

/-- The configuration blocks derived from `sampleArgsMem`. -/
def sampleConfigMem : DerivedConfig :=
  { sampleConfig with
    memory := Value.vdict [("type", Value.vstr "recent"), ("capacity", Value.vnum 100)] }

/-- C1: for every call to `ProximalPolicyOptimization.__init__`, construction
fails fast via an assertion exactly when one of `critic_network` and
`critic_optimizer` is `None` while the other is not; when both are `None` or
both are supplied, no assertion in this layer fires. -/
theorem ppo_assertion_iff (a : Args) :
    (∃ e, init a = Except.error e) ↔
      ((a.critic_network = Option.none ∧ a.critic_optimizer ≠ Option.none) ∨
       (a.critic_network ≠ Option.none ∧ a.critic_optimizer = Option.none)) := by
  cases hcn : a.critic_network <;> cases hco : a.critic_optimizer <;>
    simp [init, hcn, hco]

/-- C2: for every construction of `ProximalPolicyOptimization`, the derived
optimizer is a chain of exactly three nested stages in the fixed order
`multi_step` wrapping `subsampling_step` wrapping `adam`; and under default
construction with only the required fields, the innermost `adam` stage has
`learning_rate = 3e-4`, the subsampling stage has `fraction = 0.33`, and the
`multi_step` stage has `num_steps = 10`. -/
theorem ppo_optimizer_chain :
    (∀ (a : Args) (c : DerivedConfig), init a = Except.ok c →
      c.optimizer = Value.vdict [("type", Value.vstr "multi_step"),
        ("optimizer", Value.vdict [("type", Value.vstr "subsampling_step"),
          ("optimizer", Value.vdict [("type", Value.vstr "adam"),
            ("learning_rate", Value.vnum a.learning_rate)]),
          ("fraction", Value.vnum a.subsampling_fraction)]),
        ("num_steps", Value.vnum a.optimization_steps)]) ∧
    (∀ (s act met bs : Value) (c : DerivedConfig),
      init { states := s, actions := act, max_episode_timesteps := met,
             batch_size := bs } = Except.ok c →
      c.optimizer = Value.vdict [("type", Value.vstr "multi_step"),
        ("optimizer", Value.vdict [("type", Value.vstr "subsampling_step"),
          ("optimizer", Value.vdict [("type", Value.vstr "adam"),
            ("learning_rate", Value.vnum (3 / 10000))]),
          ("fraction", Value.vnum (33 / 100))]),
        ("num_steps", Value.vnum 10)]) := by
  have aux : ∀ (a : Args) (c : DerivedConfig), init a = Except.ok c →
      c.optimizer = Value.vdict [("type", Value.vstr "multi_step"),
        ("optimizer", Value.vdict [("type", Value.vstr "subsampling_step"),
          ("optimizer", Value.vdict [("type", Value.vstr "adam"),
            ("learning_rate", Value.vnum a.learning_rate)]),
          ("fraction", Value.vnum a.subsampling_fraction)]),
        ("num_steps", Value.vnum a.optimization_steps)] := by
    intro a c h
    cases hcn : a.critic_network <;> cases hco : a.critic_optimizer <;>
      simp [init, hcn, hco] at h <;> subst h <;> rfl
  exact ⟨aux, fun s act met bs c h => aux _ c h⟩

/-- Witness for C2: the default construction `sampleArgs` succeeds and its
derived optimizer is the concrete three-stage chain with the default
hyperparameter values. -/
theorem ppo_optimizer_chain_witness :
    sampleConfig.optimizer = Value.vdict [("type", Value.vstr "multi_step"),
      ("optimizer", Value.vdict [("type", Value.vstr "subsampling_step"),
        ("optimizer", Value.vdict [("type", Value.vstr "adam"),
          ("learning_rate", Value.vnum (3 / 10000))]),
        ("fraction", Value.vnum (33 / 100))]),
      ("num_steps", Value.vnum 10)] :=
  ppo_optimizer_chain.2 (Value.vstr "states_spec") (Value.vstr "actions_spec")
    (Value.vnum 5) (Value.vnum 2) sampleConfig rfl

/-- C3: for every construction where `critic_network` is `None` (and the
assertion passes), the derived `baseline_policy` and `baseline_objective`
are both `None`, and the derived `reward_estimation` block is exactly
`{horizon: 'episode', discount: discount}` with no `estimate_horizon`,
`estimate_terminal`, or `estimate_advantage` keys. -/
theorem ppo_no_critic_defaults (a : Args) (c : DerivedConfig)
    (hcn : a.critic_network = Option.none) (h : init a = Except.ok c) :
    c.baseline_policy = Value.vnone ∧ c.baseline_objective = Value.vnone ∧
      c.reward_estimation = Value.vdict [("horizon", Value.vstr "episode"),
        ("discount", Value.vnum a.discount)] := by
  cases hco : a.critic_optimizer <;> simp [init, hcn, hco] at h
  subst h
  exact ⟨rfl, rfl, rfl⟩

/-- Witness for C3: the default construction `sampleArgs` has
`critic_network = None`, succeeds, and yields `None` baseline blocks and the
two-key `reward_estimation` block. -/
theorem ppo_no_critic_defaults_witness :
    sampleConfig.baseline_policy = Value.vnone ∧
      sampleConfig.baseline_objective = Value.vnone ∧
      sampleConfig.reward_estimation = Value.vdict [("horizon", Value.vstr "episode"),
        ("discount", Value.vnum (99 / 100))] :=
  ppo_no_critic_defaults sampleArgs sampleConfig rfl rfl

/-- C4: for every construction with `memory = None`, the derived memory block
is exactly `{type: 'recent'}` with no capacity field; for every construction
with `memory = n` not `None`, the derived memory block is exactly
`{type: 'recent', capacity: n}`. -/
theorem ppo_memory_block :
    (∀ (a : Args) (c : DerivedConfig), a.memory = Option.none →
      init a = Except.ok c →
      c.memory = Value.vdict [("type", Value.vstr "recent")]) ∧
    (∀ (a : Args) (c : DerivedConfig) (n : Value), a.memory = Option.some n →
      init a = Except.ok c →
      c.memory = Value.vdict [("type", Value.vstr "recent"), ("capacity", n)]) := by
  constructor
  · intro a c hm h
    cases hcn : a.critic_network <;> cases hco : a.critic_optimizer <;>
      simp [init, hcn, hco, hm] at h <;> subst h <;> rfl
  · intro a c n hm h
    cases hcn : a.critic_network <;> cases hco : a.critic_optimizer <;>
      simp [init, hcn, hco, hm] at h <;> subst h <;> rfl

/-- Witness for C4: the default construction (memory `None`) yields the
capacity-free block, and the construction with memory capacity 100 yields the
block with `capacity = 100`. -/
theorem ppo_memory_block_witness :
    sampleConfig.memory = Value.vdict [("type", Value.vstr "recent")] ∧
      sampleConfigMem.memory =
        Value.vdict [("type", Value.vstr "recent"), ("capacity", Value.vnum 100)] :=
  ⟨ppo_memory_block.1 sampleArgs sampleConfig rfl rfl,
   ppo_memory_block.2 sampleArgsMem sampleConfigMem (Value.vnum 100) rfl rfl⟩

end PPO
